import Mathlib

/-!
# pyparted `convert.c`: wrapper-to-native struct converters

A shallow embedding of `src/src/convert.c`.  Every C function of that file is a
Lean function of the same name over an explicit interpreter state.

* A `PyObject *` argument that the C code casts to `_ped_X *` is an
  `Option _ped_X`; `none` is `NULL`.
* The pending error indicator of the Python runtime is `State.err`;
  `PyErr_SetString` overwrites it.
* libparted (`ped_alignment_new`, `ped_geometry_new`, `ped_device_get`,
  `ped_constraint_new`, the two destructors) and libc `malloc` are not part of
  this repository.  They are a parameter, `Libparted σ`: arbitrary functions
  over an arbitrary library state `σ` that decide, call by call, whether a
  constructor yields a handle or `NULL`.
* Every call the converters make into that library is appended to
  `State.calls`, in program order, with its arguments and its result.
-/

namespace Pyparted

/-! ## Native scalar types and handles -/

/-- The libparted typedef `PedSector` is `long long`: a signed 64-bit integer.
The converters only copy and compare sectors, so they are integers here and
`sectorInRange` singles out the values a `long long` can hold. -/
abbrev PedSector := Int

/-- The libparted enumeration `PedUnit`, by its integer enumerator value.  A C
enumeration object is 32 bits wide; its values are read as signed, the reading
under which the `return -1;` of convert.c line 238 is the value -1.
`unitInRange` singles out the values a `PedUnit` can hold. -/
abbrev PedUnit := Int

/-- The values representable in a 32-bit `PedUnit`. -/
def unitInRange (v : Int) : Prop := -(2 ^ 31) ≤ v ∧ v < 2 ^ 31

instance (v : Int) : Decidable (unitInRange v) := by
  unfold unitInRange; infer_instance

/-- The values representable in a C `long` of 64 bits (the LP64 data model). -/
def longInRange (v : Int) : Prop := -(2 ^ 63) ≤ v ∧ v < 2 ^ 63

instance (v : Int) : Decidable (longInRange v) := by
  unfold longInRange; infer_instance

/-- Conversion of a wider C integer to `PedUnit`, as the assignment
`ret = unit->val;` of convert.c line 241 performs it: the value is reduced
modulo 2^32 into the signed 32-bit range. -/
def toPedUnit (v : Int) : PedUnit := (v + 2 ^ 31) % 2 ^ 32 - 2 ^ 31

/-- The values representable in a signed 64-bit `PedSector`. -/
def sectorInRange (v : PedSector) : Prop := -(2 ^ 63) ≤ v ∧ v < 2 ^ 63

instance (v : PedSector) : Decidable (sectorInRange v) := by
  unfold sectorInRange; infer_instance

/-- A non-null `PedAlignment *` handed out by libparted, by its address. -/
structure PedAlignment where
  addr : Nat
  deriving DecidableEq, Repr

/-- A non-null `PedGeometry *` handed out by libparted, by its address. -/
structure PedGeometry where
  addr : Nat
  deriving DecidableEq, Repr

/-- A non-null `PedDevice *` handed out by libparted, by its address. -/
structure PedDevice where
  addr : Nat
  deriving DecidableEq, Repr

/-- A non-null `PedConstraint *` handed out by libparted, by its address. -/
structure PedConstraint where
  addr : Nat
  deriving DecidableEq, Repr

/-- The block `malloc`ed by `_ped_CHSGeometry2PedCHSGeometry`: its address and
the three members the converter stores through it. -/
structure PedCHSGeometry where
  addr : Nat
  cylinders : Int
  heads : Int
  sectors : Int
  deriving DecidableEq, Repr

/-! ## Wrapper objects

The struct declarations live in headers outside `src/`; the members below are
the ones `convert.c` dereferences, with a pointer member as an `Option`. -/

/-- Modelled from the spec: the declaration of `_ped_Sector` (member `val`) is
not under `src/`; the spec gives it "one 64-bit signed integer value". -/
structure _ped_Sector where
  val : PedSector
  deriving DecidableEq, Repr

/-- Modelled from the spec: the declaration of `_ped_Unit` (member `val`) is
not under `src/`; the spec gives it "one integer enumerator value".  The member
is taken as a C `long` (64 bits on LP64), wider than the enumeration `PedUnit`
it is converted to, so it is a plain integer here and `longInRange` singles out
the values it can hold. -/
structure _ped_Unit where
  val : Int
  deriving DecidableEq, Repr

/-- Members `offset` and `grain_size` of `_ped_Alignment`, both `PyObject *`. -/
structure _ped_Alignment where
  offset : Option _ped_Sector
  grain_size : Option _ped_Sector
  deriving DecidableEq, Repr

/-- Member `path` of `_ped_Device`, a nullable C string. -/
structure _ped_Device where
  path : Option String
  deriving DecidableEq, Repr

/-- Members `dev`, `start` and `length` of `_ped_Geometry`, all `PyObject *`. -/
structure _ped_Geometry where
  dev : Option _ped_Device
  start : Option _ped_Sector
  length : Option _ped_Sector
  deriving DecidableEq, Repr

/-- The six `PyObject *` members of `_ped_Constraint`. -/
structure _ped_Constraint where
  start_align : Option _ped_Alignment
  end_align : Option _ped_Alignment
  start_range : Option _ped_Geometry
  end_range : Option _ped_Geometry
  min_size : Option _ped_Sector
  max_size : Option _ped_Sector
  deriving DecidableEq, Repr

/-- Members `cylinders`, `heads` and `sectors` of `_ped_CHSGeometry`. -/
structure _ped_CHSGeometry where
  cylinders : Int
  heads : Int
  sectors : Int
  deriving DecidableEq, Repr

/-! ## Host runtime and native library -/

/-- The two exception classes `convert.c` raises. -/
inductive PyExc where
  | TypeError
  | MemoryError
  deriving DecidableEq, Repr

/-- A pending Python error: exception class and message. -/
structure PyErr where
  exc : PyExc
  msg : String
  deriving DecidableEq, Repr

/-- One call from `convert.c` into libparted or libc, with its result. -/
inductive NativeCall where
  | ped_alignment_new (offset grain_size : PedSector) (ret : Option PedAlignment)
  | ped_alignment_destroy (align : PedAlignment)
  | ped_geometry_new (dev : PedDevice) (start length : PedSector)
      (ret : Option PedGeometry)
  | ped_geometry_destroy (geom : PedGeometry)
  | ped_device_get (path : String) (ret : Option PedDevice)
  | ped_constraint_new (start_align end_align : PedAlignment)
      (start_range end_range : PedGeometry) (min_size max_size : PedSector)
      (ret : Option PedConstraint)
  | malloc (ret : Option Nat)
  deriving DecidableEq, Repr

/-- The native functions `convert.c` calls, as a parameter: each maps its
arguments and the library state to a result (`none` is `NULL`) and a new
library state. -/
structure Libparted (σ : Type) where
  ped_alignment_new : PedSector → PedSector → σ → Option PedAlignment × σ
  ped_alignment_destroy : PedAlignment → σ → σ
  ped_geometry_new : PedDevice → PedSector → PedSector → σ → Option PedGeometry × σ
  ped_geometry_destroy : PedGeometry → σ → σ
  ped_device_get : String → σ → Option PedDevice × σ
  ped_constraint_new : PedAlignment → PedAlignment → PedGeometry → PedGeometry →
    PedSector → PedSector → σ → Option PedConstraint × σ
  malloc : σ → Option Nat × σ

/-- Interpreter state: the pending error indicator, the native library's own
state, and the calls made into the library so far (oldest first). -/
structure State (σ : Type) where
  err : Option PyErr
  native : σ
  calls : List NativeCall

/-- The C API function `PyErr_SetString`: make `exc`/`msg` the pending error. -/
def PyErr_SetString {σ : Type} (exc : PyExc) (msg : String) (st : State σ) : State σ :=
  { st with err := some ⟨exc, msg⟩ }

/-- Call `ped_alignment_new` and record the call. -/
def call_ped_alignment_new {σ : Type} (lib : Libparted σ) (offset grain_size : PedSector)
    (st : State σ) : Option PedAlignment × State σ :=
  let r := lib.ped_alignment_new offset grain_size st.native
  (r.1, { st with native := r.2,
                  calls := st.calls ++ [.ped_alignment_new offset grain_size r.1] })

/-- Call `ped_alignment_destroy` and record the call. -/
def call_ped_alignment_destroy {σ : Type} (lib : Libparted σ) (align : PedAlignment)
    (st : State σ) : State σ :=
  { st with native := lib.ped_alignment_destroy align st.native,
            calls := st.calls ++ [.ped_alignment_destroy align] }

/-- Call `ped_geometry_new` and record the call. -/
def call_ped_geometry_new {σ : Type} (lib : Libparted σ) (dev : PedDevice)
    (start length : PedSector) (st : State σ) : Option PedGeometry × State σ :=
  let r := lib.ped_geometry_new dev start length st.native
  (r.1, { st with native := r.2,
                  calls := st.calls ++ [.ped_geometry_new dev start length r.1] })

/-- Call `ped_geometry_destroy` and record the call. -/
def call_ped_geometry_destroy {σ : Type} (lib : Libparted σ) (geom : PedGeometry)
    (st : State σ) : State σ :=
  { st with native := lib.ped_geometry_destroy geom st.native,
            calls := st.calls ++ [.ped_geometry_destroy geom] }

/-- Call `ped_device_get` and record the call. -/
def call_ped_device_get {σ : Type} (lib : Libparted σ) (path : String)
    (st : State σ) : Option PedDevice × State σ :=
  let r := lib.ped_device_get path st.native
  (r.1, { st with native := r.2, calls := st.calls ++ [.ped_device_get path r.1] })

/-- Call `ped_constraint_new` and record the call. -/
def call_ped_constraint_new {σ : Type} (lib : Libparted σ)
    (start_align end_align : PedAlignment) (start_range end_range : PedGeometry)
    (min_size max_size : PedSector) (st : State σ) : Option PedConstraint × State σ :=
  let r := lib.ped_constraint_new start_align end_align start_range end_range
    min_size max_size st.native
  (r.1, { st with native := r.2,
                  calls := st.calls ++ [.ped_constraint_new start_align end_align
                    start_range end_range min_size max_size r.1] })

/-- Call `malloc` and record the call. -/
def call_malloc {σ : Type} (lib : Libparted σ) (st : State σ) : Option Nat × State σ :=
  let r := lib.malloc st.native
  (r.1, { st with native := r.2, calls := st.calls ++ [.malloc r.1] })

/-! ## The converters of `convert.c` -/

/-- `PedSector _ped_Sector2PedSector(PyObject *s)`, convert.c lines 218-229. -/
def _ped_Sector2PedSector {σ : Type} (s : Option _ped_Sector) (st : State σ) :
    PedSector × State σ :=
  match s with
  | none => (-1, PyErr_SetString .TypeError "Empty _ped.Sector()" st)
  | some sector => (sector.val, st)

/-- `PedUnit _ped_Unit2PedUnit(PyObject *s)`, convert.c lines 232-243.  The
assignment `ret = unit->val;` narrows the member to a `PedUnit`. -/
def _ped_Unit2PedUnit {σ : Type} (s : Option _ped_Unit) (st : State σ) :
    PedUnit × State σ :=
  match s with
  | none => (-1, PyErr_SetString .TypeError "Empty _ped_Unit()" st)
  | some unit => (toPedUnit unit.val, st)

/-- `PedAlignment *_ped_Alignment2PedAlignment(PyObject *s)`, convert.c lines
41-68. -/
def _ped_Alignment2PedAlignment {σ : Type} (lib : Libparted σ)
    (s : Option _ped_Alignment) (st : State σ) : Option PedAlignment × State σ :=
  match s with
  | none => (none, PyErr_SetString .TypeError "Empty _ped.Alignment()" st)
  | some alignment =>
    let offset := _ped_Sector2PedSector alignment.offset st
    if offset.1 = -1 then (none, offset.2) else
    let grain_size := _ped_Sector2PedSector alignment.grain_size offset.2
    if grain_size.1 = -1 then (none, grain_size.2) else
    let ret := call_ped_alignment_new lib offset.1 grain_size.1 grain_size.2
    match ret.1 with
    | none => (none, PyErr_SetString .MemoryError "Out of memory" ret.2)
    | some r => (some r, ret.2)

/-- `PedDevice *_ped_Device2PedDevice(PyObject *s)`, convert.c lines 134-154. -/
def _ped_Device2PedDevice {σ : Type} (lib : Libparted σ)
    (s : Option _ped_Device) (st : State σ) : Option PedDevice × State σ :=
  match s with
  | none => (none, PyErr_SetString .TypeError "Empty _ped.Device()" st)
  | some dev =>
    match dev.path with
    | some path =>
      let ret := call_ped_device_get lib path st
      match ret.1 with
      | none => (none, PyErr_SetString .MemoryError "Out of memory" ret.2)
      | some r => (some r, ret.2)
    | none => (none, st)

/-- `PedGeometry *_ped_Geometry2PedGeometry(PyObject *s)`, convert.c lines
157-192. -/
def _ped_Geometry2PedGeometry {σ : Type} (lib : Libparted σ)
    (s : Option _ped_Geometry) (st : State σ) : Option PedGeometry × State σ :=
  match s with
  | none => (none, PyErr_SetString .TypeError "Empty _ped.Geometry()" st)
  | some geometry =>
    let dev := _ped_Device2PedDevice lib geometry.dev st
    match dev.1 with
    | none => (none, dev.2)
    | some d =>
      let start := _ped_Sector2PedSector geometry.start dev.2
      if start.1 = -1 then (none, start.2) else
      let length := _ped_Sector2PedSector geometry.length start.2
      if length.1 = -1 then (none, length.2) else
      let ret := call_ped_geometry_new lib d start.1 length.1 length.2
      match ret.1 with
      | none => (none, PyErr_SetString .MemoryError "Out of memory" ret.2)
      | some r => (some r, ret.2)

/-- `PedConstraint *_ped_Constraint2PedConstraint(PyObject *s)`, convert.c
lines 71-126. -/
def _ped_Constraint2PedConstraint {σ : Type} (lib : Libparted σ)
    (s : Option _ped_Constraint) (st : State σ) : Option PedConstraint × State σ :=
  match s with
  | none => (none, PyErr_SetString .TypeError "Empty _ped.Constraint()" st)
  | some constraint =>
    let start_align := _ped_Alignment2PedAlignment lib constraint.start_align st
    match start_align.1 with
    | none => (none, start_align.2)
    | some sa =>
      let end_align := _ped_Alignment2PedAlignment lib constraint.end_align start_align.2
      match end_align.1 with
      | none => (none, end_align.2)
      | some ea =>
        let start_range := _ped_Geometry2PedGeometry lib constraint.start_range end_align.2
        match start_range.1 with
        | none => (none, start_range.2)
        | some sr =>
          let end_range := _ped_Geometry2PedGeometry lib constraint.end_range start_range.2
          match end_range.1 with
          | none => (none, end_range.2)
          | some er =>
            let min_size := _ped_Sector2PedSector constraint.min_size end_range.2
            if min_size.1 = -1 then (none, min_size.2) else
            let max_size := _ped_Sector2PedSector constraint.max_size min_size.2
            if max_size.1 = -1 then (none, max_size.2) else
            let ret := call_ped_constraint_new lib sa ea sr er min_size.1 max_size.1
              max_size.2
            match ret.1 with
            | none => (none, PyErr_SetString .MemoryError "Out of memory" ret.2)
            | some r =>
              (some r,
                call_ped_geometry_destroy lib er
                  (call_ped_geometry_destroy lib sr
                    (call_ped_alignment_destroy lib ea
                      (call_ped_alignment_destroy lib sa ret.2))))

/-- `_ped_Constraint *PedConstraint2_ped_Constraint(PedConstraint *constraint)`,
convert.c lines 128-131: the body is `return NULL;`. -/
def PedConstraint2_ped_Constraint {σ : Type} (_constraint : Option PedConstraint)
    (st : State σ) : Option _ped_Constraint × State σ :=
  (none, st)

/-- What a C function with a non-void result type hands back: the operand of
`return e;`, or nothing at all when control leaves through a bare `return;`
(the caller then reads an indeterminate value). -/
inductive Returned (α : Type) where
  | value (v : α)
  | noValue
  deriving DecidableEq, Repr

/-- `PedCHSGeometry *_ped_CHSGeometry2PedCHSGeometry(PyObject *s)`, convert.c
lines 195-215.  The null branch ends in a bare `return;`. -/
def _ped_CHSGeometry2PedCHSGeometry {σ : Type} (lib : Libparted σ)
    (s : Option _ped_CHSGeometry) (st : State σ) :
    Returned (Option PedCHSGeometry) × State σ :=
  match s with
  | none => (.noValue, PyErr_SetString .TypeError "Empty _ped.CHSGeometry()" st)
  | some srcgeom =>
    let ret := call_malloc lib st
    match ret.1 with
    | none => (.value none, PyErr_SetString .MemoryError "Out of memory" ret.2)
    | some p =>
      (.value (some ⟨p, srcgeom.cylinders, srcgeom.heads, srcgeom.sectors⟩), ret.2)

/-! ## Observations on the call log -/

/-- Is this call a `ped_constraint_new`? -/
def NativeCall.isConstraintNew : NativeCall → Bool
  | .ped_constraint_new .. => true
  | _ => false

/-- Is this call a `ped_geometry_new`? -/
def NativeCall.isGeometryNew : NativeCall → Bool
  | .ped_geometry_new .. => true
  | _ => false

/-- Does this call hand out a fresh native `PedAlignment` or `PedGeometry`? -/
def NativeCall.createsIntermediate : NativeCall → Bool
  | .ped_alignment_new _ _ (some _) => true
  | .ped_geometry_new _ _ _ (some _) => true
  | _ => false

/-- Does this call release a native `PedAlignment` or `PedGeometry`? -/
def NativeCall.releasesIntermediate : NativeCall → Bool
  | .ped_alignment_destroy _ => true
  | .ped_geometry_destroy _ => true
  | _ => false

/-- Number of native alignments and geometries created and not yet destroyed
according to a call log. -/
def liveIntermediates (calls : List NativeCall) : Int :=
  (calls.countP NativeCall.createsIntermediate : Int)
    - (calls.countP NativeCall.releasesIntermediate : Int)

/-- Two constraint wrappers agree on their first `k` members, in the order the
converter reads them: `start_align`, `end_align`, `start_range`, `end_range`,
`min_size`, `max_size`. -/
def agreeUpTo (k : Nat) (c c' : _ped_Constraint) : Prop :=
  (1 ≤ k → c'.start_align = c.start_align) ∧
  (2 ≤ k → c'.end_align = c.end_align) ∧
  (3 ≤ k → c'.start_range = c.start_range) ∧
  (4 ≤ k → c'.end_range = c.end_range) ∧
  (5 ≤ k → c'.min_size = c.min_size) ∧
  (6 ≤ k → c'.max_size = c.max_size)

instance (k : Nat) (c c' : _ped_Constraint) : Decidable (agreeUpTo k c c') := by
  unfold agreeUpTo; infer_instance

/-! ## Concrete native libraries, used to evaluate the converters -/

/-- A library in which every constructor succeeds; the library state is the
next free address. -/
def okLib : Libparted Nat where
  ped_alignment_new := fun _ _ n => (some ⟨n⟩, n + 1)
  ped_alignment_destroy := fun _ n => n
  ped_geometry_new := fun _ _ _ n => (some ⟨n⟩, n + 1)
  ped_geometry_destroy := fun _ n => n
  ped_device_get := fun _ n => (some ⟨n⟩, n + 1)
  ped_constraint_new := fun _ _ _ _ _ _ n => (some ⟨n⟩, n + 1)
  malloc := fun n => (some n, n + 1)

/-- A library in which `ped_constraint_new` fails and everything else succeeds. -/
def noConstraintLib : Libparted Nat :=
  { okLib with ped_constraint_new := fun _ _ _ _ _ _ n => (none, n) }

/-- The state before anything happened: no pending error, no call made, the
first free address is 1. -/
def st0 : State Nat := { err := none, native := 1, calls := [] }

/-! ## Basic facts about the converters -/

/-- The sector converter never calls into the native library. -/
theorem sector_calls {σ : Type} (s : Option _ped_Sector) (st : State σ) :
    (_ped_Sector2PedSector s st).2.calls = st.calls := by
  cases s <;> rfl

/-! ## C1: Alignment conversion -/

/-- C1, as stated, fails: the alignment wrapper with offset `Sector{-1}` and
grain size `Sector{1}` holds two representable 64-bit values and
`ped_alignment_new (-1) 1` would succeed, yet the converter returns `NULL`
without calling it (and without setting an error).  The same happens for
offset `Sector{0}` and grain size `Sector{-1}`. -/
theorem alignment_sentinel_offset_rejected :
    sectorInRange (-1) ∧ sectorInRange 1 ∧ sectorInRange 0 ∧
    (okLib.ped_alignment_new (-1) 1 st0.native).1 = some ⟨1⟩ ∧
    _ped_Alignment2PedAlignment okLib (some ⟨some ⟨-1⟩, some ⟨1⟩⟩) st0 = (none, st0) ∧
    (okLib.ped_alignment_new 0 (-1) st0.native).1 = some ⟨1⟩ ∧
    _ped_Alignment2PedAlignment okLib (some ⟨some ⟨0⟩, some ⟨-1⟩⟩) st0 = (none, st0) := by
  refine ⟨by decide, by decide, by decide, rfl, rfl, rfl, rfl⟩

/-- C1, amended: for a non-null alignment wrapper whose offset and grain size are
non-null sector wrappers with values other than -1, if `ped_alignment_new`
succeeds on `(offset.val, grain_size.val)` with handle `r`, the converter returns
`r`, its only native call is `ped_alignment_new offset.val grain_size.val`, and
the pending error is untouched. -/
theorem alignment_conversion_exact {σ : Type} (lib : Libparted σ)
    (offset grain_size : _ped_Sector) (st : State σ) (r : PedAlignment)
    (ho : offset.val ≠ -1) (hg : grain_size.val ≠ -1)
    (hnew : (lib.ped_alignment_new offset.val grain_size.val st.native).1 = some r) :
    _ped_Alignment2PedAlignment lib (some ⟨some offset, some grain_size⟩) st
      = (some r,
          { err := st.err,
            native := (lib.ped_alignment_new offset.val grain_size.val st.native).2,
            calls := st.calls ++
              [.ped_alignment_new offset.val grain_size.val (some r)] }) := by
  simp [_ped_Alignment2PedAlignment, _ped_Sector2PedSector, call_ped_alignment_new,
    ho, hg, hnew]

/-- Witness of C1 (amended) at offset 2048, grain size 8. -/
theorem alignment_conversion_exact_witness :
    (2048 : Int) ≠ -1 ∧ (8 : Int) ≠ -1 ∧
    (okLib.ped_alignment_new 2048 8 st0.native).1 = some ⟨1⟩ ∧
    _ped_Alignment2PedAlignment okLib (some ⟨some ⟨2048⟩, some ⟨8⟩⟩) st0
      = (some ⟨1⟩,
          { err := none, native := 2,
            calls := [.ped_alignment_new 2048 8 (some ⟨1⟩)] }) :=
  ⟨by decide, by decide, rfl,
    alignment_conversion_exact okLib ⟨2048⟩ ⟨8⟩ st0 ⟨1⟩ (by decide) (by decide) rfl⟩

/-! ## C2: null wrappers -/

/-- The six converters other than the CHS one, on a null wrapper: the result is
the failure value (`NULL`, or -1 for the two scalar converters), a `TypeError`
is pending, and neither the call log nor the native state has changed. -/
theorem null_wrapper_rejected {σ : Type} (lib : Libparted σ) (st : State σ) :
    _ped_Alignment2PedAlignment lib none st
      = (none, { st with err := some ⟨.TypeError, "Empty _ped.Alignment()"⟩ }) ∧
    _ped_Constraint2PedConstraint lib none st
      = (none, { st with err := some ⟨.TypeError, "Empty _ped.Constraint()"⟩ }) ∧
    _ped_Device2PedDevice lib none st
      = (none, { st with err := some ⟨.TypeError, "Empty _ped.Device()"⟩ }) ∧
    _ped_Geometry2PedGeometry lib none st
      = (none, { st with err := some ⟨.TypeError, "Empty _ped.Geometry()"⟩ }) ∧
    _ped_Sector2PedSector none st
      = (-1, { st with err := some ⟨.TypeError, "Empty _ped.Sector()"⟩ }) ∧
    _ped_Unit2PedUnit none st
      = (-1, { st with err := some ⟨.TypeError, "Empty _ped_Unit()"⟩ }) :=
  ⟨rfl, rfl, rfl, rfl, rfl, rfl⟩

/-- C2, the failing input: on a null wrapper `_ped_CHSGeometry2PedCHSGeometry`
does set a `TypeError` and does not allocate, but it leaves through a bare
`return;`, so it hands back no value at all rather than `NULL`. -/
theorem chsgeometry_null_returns_no_value {σ : Type} (lib : Libparted σ) (st : State σ) :
    _ped_CHSGeometry2PedCHSGeometry lib none st
      = (Returned.noValue, { st with err := some ⟨.TypeError, "Empty _ped.CHSGeometry()"⟩ }) ∧
    (_ped_CHSGeometry2PedCHSGeometry lib none st).1 ≠ Returned.value none := by
  refine ⟨rfl, ?_⟩
  simp [_ped_CHSGeometry2PedCHSGeometry]

/-! ## C3: failures that leave no pending error -/

/-- C3, the failing inputs: a device wrapper whose `path` is `NULL` makes
`_ped_Device2PedDevice` return `NULL` with the state untouched, so from a state
with no pending error none is pending on return; the geometry and constraint
converters pass that silent failure on, and the alignment converter does the
same on an offset of -1.  Evaluated from the initial state `st0`: the result is
`NULL` and no error is pending. -/
theorem null_path_fails_without_error {σ : Type} (lib : Libparted σ) (st : State σ) :
    _ped_Device2PedDevice lib (some ⟨none⟩) st = (none, st) ∧
    _ped_Geometry2PedGeometry lib (some ⟨some ⟨none⟩, some ⟨0⟩, some ⟨100⟩⟩) st = (none, st) ∧
    _ped_Alignment2PedAlignment lib (some ⟨some ⟨-1⟩, some ⟨1⟩⟩) st = (none, st) ∧
    _ped_Constraint2PedConstraint lib
      (some ⟨some ⟨some ⟨-1⟩, some ⟨1⟩⟩, none, none, none, none, none⟩) st = (none, st) ∧
    st0.err = none ∧
    (_ped_Device2PedDevice okLib (some ⟨none⟩) st0).1 = none ∧
    (_ped_Device2PedDevice okLib (some ⟨none⟩) st0).2.err = none :=
  ⟨rfl, rfl, rfl, rfl, rfl, rfl, rfl⟩

/-! ## C4: a null `start_align` -/

/-- C4: for every non-null constraint wrapper whose `start_align` is null, the
constraint converter returns `NULL` with a `TypeError` pending, and the call log
and the native state are exactly what they were: no native function ran. -/
theorem constraint_null_start_align {σ : Type} (lib : Libparted σ)
    (c : _ped_Constraint) (st : State σ) (h : c.start_align = none) :
    (_ped_Constraint2PedConstraint lib (some c) st).1 = none ∧
    (_ped_Constraint2PedConstraint lib (some c) st).2.calls = st.calls ∧
    (_ped_Constraint2PedConstraint lib (some c) st).2.native = st.native ∧
    (_ped_Constraint2PedConstraint lib (some c) st).2.err
      = some ⟨.TypeError, "Empty _ped.Alignment()"⟩ := by
  simp [_ped_Constraint2PedConstraint, _ped_Alignment2PedAlignment, PyErr_SetString, h]

/-- Witness of C4: a constraint wrapper with a null `start_align` and every other
member present. -/
theorem constraint_null_start_align_witness :
    (_ped_Constraint2PedConstraint okLib
      (some ⟨none, some ⟨some ⟨0⟩, some ⟨1⟩⟩, some ⟨some ⟨some "/dev/sda"⟩, some ⟨0⟩, some ⟨100⟩⟩,
        some ⟨some ⟨some "/dev/sda"⟩, some ⟨0⟩, some ⟨100⟩⟩, some ⟨1⟩, some ⟨100⟩⟩) st0).1 = none ∧
    (_ped_Constraint2PedConstraint okLib
      (some ⟨none, some ⟨some ⟨0⟩, some ⟨1⟩⟩, some ⟨some ⟨some "/dev/sda"⟩, some ⟨0⟩, some ⟨100⟩⟩,
        some ⟨some ⟨some "/dev/sda"⟩, some ⟨0⟩, some ⟨100⟩⟩, some ⟨1⟩, some ⟨100⟩⟩) st0).2.calls = [] :=
  have h := constraint_null_start_align okLib
    ⟨none, some ⟨some ⟨0⟩, some ⟨1⟩⟩, some ⟨some ⟨some "/dev/sda"⟩, some ⟨0⟩, some ⟨100⟩⟩,
      some ⟨some ⟨some "/dev/sda"⟩, some ⟨0⟩, some ⟨100⟩⟩, some ⟨1⟩, some ⟨100⟩⟩ st0 rfl
  ⟨h.1, h.2.1⟩

/-! ## C5 and C6: the scalar converters -/

/-- Narrowing to `PedUnit` keeps exactly the values a `PedUnit` can hold. -/
theorem toPedUnit_eq_iff (v : Int) : toPedUnit v = v ↔ unitInRange v := by
  unfold toPedUnit unitInRange
  have e31 : (2 : Int) ^ 31 = 2147483648 := by norm_num
  have e32 : (2 : Int) ^ 32 = 4294967296 := by norm_num
  rw [e31, e32]
  show ((v + 2147483648) % 4294967296 - 2147483648 : Int) = v ↔ _
  constructor
  · intro h
    omega
  · intro h
    omega

/-- C6, the failing input: `Sector{val: -1}` is a well-formed non-null wrapper,
and the sector converter returns -1 for it with the state untouched, so no
error is pending although callers read -1 as failure. -/
theorem sector_minus_one_is_silent {σ : Type} (st : State σ) :
    sectorInRange (-1) ∧
    _ped_Sector2PedSector (some ⟨-1⟩) st = (-1, st) ∧
    (_ped_Sector2PedSector (some ⟨-1⟩) st0).2.err = none :=
  ⟨by decide, rfl, rfl⟩

/-! ## C7: intermediates on the failure paths -/

/-- C7, the failing inputs.  With `start_align` convertible and `end_align`
null, the converter creates one native alignment, returns `NULL` and never
destroys it: one more intermediate is live after the call than before.  When
only `ped_constraint_new` fails, all four intermediates stay live.  On the
successful path the four are destroyed and the count is back where it was. -/
theorem constraint_failure_leaks_intermediates :
    (_ped_Constraint2PedConstraint okLib
      (some ⟨some ⟨some ⟨0⟩, some ⟨1⟩⟩, none, none, none, none, none⟩) st0)
      = (none, { err := some ⟨.TypeError, "Empty _ped.Alignment()"⟩, native := 2,
                 calls := [.ped_alignment_new 0 1 (some ⟨1⟩)] }) ∧
    liveIntermediates (_ped_Constraint2PedConstraint okLib
      (some ⟨some ⟨some ⟨0⟩, some ⟨1⟩⟩, none, none, none, none, none⟩) st0).2.calls
      = liveIntermediates st0.calls + 1 ∧
    (_ped_Constraint2PedConstraint noConstraintLib
      (some ⟨some ⟨some ⟨0⟩, some ⟨1⟩⟩, some ⟨some ⟨0⟩, some ⟨1⟩⟩,
        some ⟨some ⟨some "/dev/sda"⟩, some ⟨0⟩, some ⟨100⟩⟩,
        some ⟨some ⟨some "/dev/sda"⟩, some ⟨0⟩, some ⟨100⟩⟩, some ⟨1⟩, some ⟨100⟩⟩) st0).1
      = none ∧
    liveIntermediates (_ped_Constraint2PedConstraint noConstraintLib
      (some ⟨some ⟨some ⟨0⟩, some ⟨1⟩⟩, some ⟨some ⟨0⟩, some ⟨1⟩⟩,
        some ⟨some ⟨some "/dev/sda"⟩, some ⟨0⟩, some ⟨100⟩⟩,
        some ⟨some ⟨some "/dev/sda"⟩, some ⟨0⟩, some ⟨100⟩⟩, some ⟨1⟩, some ⟨100⟩⟩) st0).2.calls
      = liveIntermediates st0.calls + 4 ∧
    liveIntermediates (_ped_Constraint2PedConstraint okLib
      (some ⟨some ⟨some ⟨0⟩, some ⟨1⟩⟩, some ⟨some ⟨0⟩, some ⟨1⟩⟩,
        some ⟨some ⟨some "/dev/sda"⟩, some ⟨0⟩, some ⟨100⟩⟩,
        some ⟨some ⟨some "/dev/sda"⟩, some ⟨0⟩, some ⟨100⟩⟩, some ⟨1⟩, some ⟨100⟩⟩) st0).2.calls
      = liveIntermediates st0.calls := by
  refine ⟨rfl, by decide, rfl, by decide, by decide⟩

/-! ## C8: Geometry conversion -/

/-- C8, as stated, fails: `Geometry{dev, start: Sector{-1}, length: Sector{100}}`
has a device whose lookup succeeds and two non-null sector wrappers, and
`ped_geometry_new` would succeed on them, yet the converter returns `NULL` right
after the device lookup.  The same happens for start `Sector{0}` and length
`Sector{-1}`. -/
theorem geometry_sentinel_start_rejected :
    (okLib.ped_device_get "/dev/sda" st0.native).1 = some ⟨1⟩ ∧
    (okLib.ped_geometry_new ⟨1⟩ (-1) 100 2).1 = some ⟨2⟩ ∧
    _ped_Geometry2PedGeometry okLib
      (some ⟨some ⟨some "/dev/sda"⟩, some ⟨-1⟩, some ⟨100⟩⟩) st0
      = (none, { err := none, native := 2,
                 calls := [.ped_device_get "/dev/sda" (some ⟨1⟩)] }) ∧
    (okLib.ped_geometry_new ⟨1⟩ 0 (-1) 2).1 = some ⟨2⟩ ∧
    _ped_Geometry2PedGeometry okLib
      (some ⟨some ⟨some "/dev/sda"⟩, some ⟨0⟩, some ⟨-1⟩⟩) st0
      = (none, { err := none, native := 2,
                 calls := [.ped_device_get "/dev/sda" (some ⟨1⟩)] }) :=
  ⟨rfl, rfl, rfl, rfl, rfl⟩

/-- C8, amended: for a non-null geometry wrapper whose device has a non-null
path on which `ped_device_get` succeeds with handle `d`, and whose start and
length are non-null sector wrappers with values other than -1, if
`ped_geometry_new d start.val length.val` succeeds with handle `g`, the converter
returns `g`; its native calls are exactly the lookup followed by
`ped_geometry_new` on that same `d`, so the device is not released; the pending
error is untouched. -/
theorem geometry_conversion_aliases_device {σ : Type} (lib : Libparted σ)
    (path : String) (start length : _ped_Sector) (st : State σ)
    (d : PedDevice) (g : PedGeometry)
    (hs : start.val ≠ -1) (hl : length.val ≠ -1)
    (hdev : (lib.ped_device_get path st.native).1 = some d)
    (hnew : (lib.ped_geometry_new d start.val length.val
      (lib.ped_device_get path st.native).2).1 = some g) :
    _ped_Geometry2PedGeometry lib (some ⟨some ⟨some path⟩, some start, some length⟩) st
      = (some g,
          { err := st.err,
            native := (lib.ped_geometry_new d start.val length.val
              (lib.ped_device_get path st.native).2).2,
            calls := st.calls ++
              [.ped_device_get path (some d),
               .ped_geometry_new d start.val length.val (some g)] }) := by
  simp [_ped_Geometry2PedGeometry, _ped_Device2PedDevice, _ped_Sector2PedSector,
    call_ped_device_get, call_ped_geometry_new, hs, hl, hdev, hnew]

/-- Witness of C8 (amended): `Geometry{dev: "/dev/sda", start: 0, length: 100}`. -/
theorem geometry_conversion_aliases_device_witness :
    (0 : Int) ≠ -1 ∧ (100 : Int) ≠ -1 ∧
    (okLib.ped_device_get "/dev/sda" st0.native).1 = some ⟨1⟩ ∧
    (okLib.ped_geometry_new ⟨1⟩ 0 100 (okLib.ped_device_get "/dev/sda" st0.native).2).1
      = some ⟨2⟩ ∧
    _ped_Geometry2PedGeometry okLib
      (some ⟨some ⟨some "/dev/sda"⟩, some ⟨0⟩, some ⟨100⟩⟩) st0
      = (some ⟨2⟩,
          { err := none, native := 3,
            calls := [.ped_device_get "/dev/sda" (some ⟨1⟩),
                      .ped_geometry_new ⟨1⟩ 0 100 (some ⟨2⟩)] }) :=
  ⟨by decide, by decide, rfl, rfl,
    geometry_conversion_aliases_device okLib "/dev/sda" ⟨0⟩ ⟨100⟩ st0 ⟨1⟩ ⟨2⟩
      (by decide) (by decide) rfl rfl⟩

/-! ## C9: the reverse converter -/

/-- C9: `PedConstraint2_ped_Constraint` returns `NULL` for every argument, null
or not, and leaves the whole state (pending error, native state, call log) as
it found it. -/
theorem reverse_constraint_is_stub {σ : Type} (constraint : Option PedConstraint)
    (st : State σ) :
    PedConstraint2_ped_Constraint constraint st = (none, st) ∧
    (PedConstraint2_ped_Constraint constraint st).2.calls = st.calls ∧
    (PedConstraint2_ped_Constraint constraint st).2.err = st.err :=
  ⟨rfl, rfl, rfl⟩

/-! ## C10: nested failures -/

/-- The device converter calls nothing but `ped_device_get`. -/
theorem device_countP {σ : Type} (p : NativeCall → Bool)
    (hp : ∀ path ret, p (.ped_device_get path ret) = false)
    (lib : Libparted σ) (s : Option _ped_Device) (st : State σ) :
    (_ped_Device2PedDevice lib s st).2.calls.countP p = st.calls.countP p := by
  rcases s with _ | ⟨_ | path⟩
  · rfl
  · rfl
  · simp only [_ped_Device2PedDevice, call_ped_device_get]
    cases lib.ped_device_get path st.native with
    | mk r n => cases r <;> simp [PyErr_SetString, List.countP_append, hp]

/-- The alignment converter calls nothing but `ped_alignment_new`. -/
theorem alignment_countP {σ : Type} (p : NativeCall → Bool)
    (hp : ∀ o g ret, p (.ped_alignment_new o g ret) = false)
    (lib : Libparted σ) (s : Option _ped_Alignment) (st : State σ) :
    (_ped_Alignment2PedAlignment lib s st).2.calls.countP p = st.calls.countP p := by
  rcases s with _ | ⟨offset, grain_size⟩
  · rfl
  · simp only [_ped_Alignment2PedAlignment]
    split
    · exact congrArg _ (sector_calls _ _)
    · split
      · simp [sector_calls]
      · simp only [call_ped_alignment_new]
        split <;> simp [PyErr_SetString, List.countP_append, hp, sector_calls]

/-- When the geometry converter fails before its constructor call (device,
start or length), it has called nothing but `ped_device_get`. -/
theorem geometry_countP {σ : Type} (p : NativeCall → Bool)
    (hd : ∀ path ret, p (.ped_device_get path ret) = false)
    (hg : ∀ d a b ret, p (.ped_geometry_new d a b ret) = false)
    (lib : Libparted σ) (s : Option _ped_Geometry) (st : State σ) :
    (_ped_Geometry2PedGeometry lib s st).2.calls.countP p = st.calls.countP p := by
  rcases s with _ | ⟨dev, start, length⟩
  · rfl
  · have hdev := device_countP p hd lib dev st
    simp only [_ped_Geometry2PedGeometry]
    split
    · exact hdev
    · split
      · simp [sector_calls, hdev]
      · split
        · simp [sector_calls, hdev]
        · simp only [call_ped_geometry_new]
          split <;> simp [PyErr_SetString, List.countP_append, hg, sector_calls, hdev]

/-- The constraint converter in terms of the results `r1` .. `r6` of its six
member conversions, each started in the state its predecessor left. -/
theorem constraint_abort_steps {σ : Type} (lib : Libparted σ) (st : State σ)
    (c : _ped_Constraint)
    (r1 r2 : Option PedAlignment × State σ) (r3 r4 : Option PedGeometry × State σ)
    (r5 r6 : PedSector × State σ)
    (h1 : _ped_Alignment2PedAlignment lib c.start_align st = r1)
    (h2 : _ped_Alignment2PedAlignment lib c.end_align r1.2 = r2)
    (h3 : _ped_Geometry2PedGeometry lib c.start_range r2.2 = r3)
    (h4 : _ped_Geometry2PedGeometry lib c.end_range r3.2 = r4)
    (h5 : _ped_Sector2PedSector c.min_size r4.2 = r5)
    (h6 : _ped_Sector2PedSector c.max_size r5.2 = r6) :
    (r1.1 = none → _ped_Constraint2PedConstraint lib (some c) st = (none, r1.2)) ∧
    (r1.1 ≠ none → r2.1 = none →
      _ped_Constraint2PedConstraint lib (some c) st = (none, r2.2)) ∧
    (r1.1 ≠ none → r2.1 ≠ none → r3.1 = none →
      _ped_Constraint2PedConstraint lib (some c) st = (none, r3.2)) ∧
    (r1.1 ≠ none → r2.1 ≠ none → r3.1 ≠ none → r4.1 = none →
      _ped_Constraint2PedConstraint lib (some c) st = (none, r4.2)) ∧
    (r1.1 ≠ none → r2.1 ≠ none → r3.1 ≠ none → r4.1 ≠ none → r5.1 = -1 →
      _ped_Constraint2PedConstraint lib (some c) st = (none, r5.2)) ∧
    (r1.1 ≠ none → r2.1 ≠ none → r3.1 ≠ none → r4.1 ≠ none → r5.1 ≠ -1 → r6.1 = -1 →
      _ped_Constraint2PedConstraint lib (some c) st = (none, r6.2)) ∧
    (r1.1 = none ∨ r2.1 = none ∨ r3.1 = none ∨ r4.1 = none ∨ r5.1 = -1 ∨ r6.1 = -1 →
      (_ped_Constraint2PedConstraint lib (some c) st).1 = none ∧
      (_ped_Constraint2PedConstraint lib (some c) st).2.calls.countP
          NativeCall.isConstraintNew
        = st.calls.countP NativeCall.isConstraintNew) := by
  have c1 := alignment_countP NativeCall.isConstraintNew (fun _ _ _ => rfl)
    lib c.start_align st
  have c2 := alignment_countP NativeCall.isConstraintNew (fun _ _ _ => rfl)
    lib c.end_align r1.2
  have c3 := geometry_countP NativeCall.isConstraintNew (fun _ _ => rfl)
    (fun _ _ _ _ => rfl) lib c.start_range r2.2
  have c4 := geometry_countP NativeCall.isConstraintNew (fun _ _ => rfl)
    (fun _ _ _ _ => rfl) lib c.end_range r3.2
  have c5 := sector_calls c.min_size r4.2
  have c6 := sector_calls c.max_size r5.2
  rw [h1] at c1
  rw [h2] at c2
  rw [h3] at c3
  rw [h4] at c4
  rw [h5] at c5
  rw [h6] at c6
  simp only [_ped_Constraint2PedConstraint, h1, h2, h3, h4, h5, h6]
  obtain ⟨a1, s1⟩ := r1
  obtain ⟨a2, s2⟩ := r2
  obtain ⟨a3, s3⟩ := r3
  obtain ⟨a4, s4⟩ := r4
  obtain ⟨a5, s5⟩ := r5
  obtain ⟨a6, s6⟩ := r6
  simp only at c1 c2 c3 c4 c5 c6
  rcases a1 with _ | a1
  · simp [c1]
  rcases a2 with _ | a2
  · simp [c1, c2]
  rcases a3 with _ | a3
  · simp [c1, c2, c3]
  rcases a4 with _ | a4
  · simp [c1, c2, c3, c4]
  by_cases e5 : a5 = -1
  · simp [e5, c1, c2, c3, c4, c5]
  by_cases e6 : a6 = -1
  · simp [e5, e6, c1, c2, c3, c4, c5, c6]
  · simp [e5, e6]

/-- The geometry converter in terms of the results of its three member
conversions, each started in the state its predecessor left. -/
theorem geometry_abort_steps {σ : Type} (lib : Libparted σ) (st : State σ)
    (g : _ped_Geometry)
    (d : Option PedDevice × State σ) (s l : PedSector × State σ)
    (h1 : _ped_Device2PedDevice lib g.dev st = d)
    (h2 : _ped_Sector2PedSector g.start d.2 = s)
    (h3 : _ped_Sector2PedSector g.length s.2 = l) :
    (d.1 = none → _ped_Geometry2PedGeometry lib (some g) st = (none, d.2)) ∧
    (d.1 ≠ none → s.1 = -1 → _ped_Geometry2PedGeometry lib (some g) st = (none, s.2)) ∧
    (d.1 ≠ none → s.1 ≠ -1 → l.1 = -1 →
      _ped_Geometry2PedGeometry lib (some g) st = (none, l.2)) ∧
    (d.1 = none ∨ s.1 = -1 ∨ l.1 = -1 →
      (_ped_Geometry2PedGeometry lib (some g) st).1 = none ∧
      (_ped_Geometry2PedGeometry lib (some g) st).2.calls.countP NativeCall.isGeometryNew
        = st.calls.countP NativeCall.isGeometryNew) := by
  have c1 := device_countP NativeCall.isGeometryNew (fun _ _ => rfl) lib g.dev st
  have c2 := sector_calls g.start d.2
  have c3 := sector_calls g.length s.2
  rw [h1] at c1
  rw [h2] at c2
  rw [h3] at c3
  simp only [_ped_Geometry2PedGeometry, h1, h2, h3]
  obtain ⟨a1, s1⟩ := d
  obtain ⟨a2, s2⟩ := s
  obtain ⟨a3, s3⟩ := l
  simp only at c1 c2 c3
  rcases a1 with _ | a1
  · simp [c1]
  by_cases e2 : a2 = -1
  · simp [e2, c1, c2]
  by_cases e3 : a3 = -1
  · simp [e2, e3, c1, c2, c3]
  · simp [e2, e3]

/-- C10: nested failures abort immediately.  For a non-null constraint wrapper
`c`, let `r1` .. `r6` be the results of converting `start_align`, `end_align`,
`start_range`, `end_range`, `min_size`, `max_size` in that order, each in the
state its predecessor left.  If conversion `k` is the first to fail (`NULL`, or
-1 for a sector), the converter returns `NULL` in exactly the state conversion
`k` left, and it does so for every wrapper that agrees with `c` on the first `k`
members: the later members are never looked at.  Whenever one of the six fails
the result is `NULL` and the log holds no new `ped_constraint_new`.  Likewise
for a geometry wrapper and its `dev`, `start`, `length`: the result is `NULL`,
the state is the one the failing conversion left, and the log holds no new
`ped_geometry_new`. -/
theorem nested_failure_aborts {σ : Type} (lib : Libparted σ) (st : State σ) :
    (∀ c : _ped_Constraint,
      let r1 := _ped_Alignment2PedAlignment lib c.start_align st
      let r2 := _ped_Alignment2PedAlignment lib c.end_align r1.2
      let r3 := _ped_Geometry2PedGeometry lib c.start_range r2.2
      let r4 := _ped_Geometry2PedGeometry lib c.end_range r3.2
      let r5 := _ped_Sector2PedSector c.min_size r4.2
      let r6 := _ped_Sector2PedSector c.max_size r5.2
      (r1.1 = none → ∀ c', agreeUpTo 1 c c' →
        _ped_Constraint2PedConstraint lib (some c') st = (none, r1.2)) ∧
      (r1.1 ≠ none → r2.1 = none → ∀ c', agreeUpTo 2 c c' →
        _ped_Constraint2PedConstraint lib (some c') st = (none, r2.2)) ∧
      (r1.1 ≠ none → r2.1 ≠ none → r3.1 = none → ∀ c', agreeUpTo 3 c c' →
        _ped_Constraint2PedConstraint lib (some c') st = (none, r3.2)) ∧
      (r1.1 ≠ none → r2.1 ≠ none → r3.1 ≠ none → r4.1 = none →
        ∀ c', agreeUpTo 4 c c' →
        _ped_Constraint2PedConstraint lib (some c') st = (none, r4.2)) ∧
      (r1.1 ≠ none → r2.1 ≠ none → r3.1 ≠ none → r4.1 ≠ none → r5.1 = -1 →
        ∀ c', agreeUpTo 5 c c' →
        _ped_Constraint2PedConstraint lib (some c') st = (none, r5.2)) ∧
      (r1.1 ≠ none → r2.1 ≠ none → r3.1 ≠ none → r4.1 ≠ none → r5.1 ≠ -1 →
        r6.1 = -1 → ∀ c', agreeUpTo 6 c c' →
        _ped_Constraint2PedConstraint lib (some c') st = (none, r6.2)) ∧
      (r1.1 = none ∨ r2.1 = none ∨ r3.1 = none ∨ r4.1 = none ∨ r5.1 = -1 ∨ r6.1 = -1 →
        (_ped_Constraint2PedConstraint lib (some c) st).1 = none ∧
        (_ped_Constraint2PedConstraint lib (some c) st).2.calls.countP
            NativeCall.isConstraintNew
          = st.calls.countP NativeCall.isConstraintNew)) ∧
    (∀ g : _ped_Geometry,
      let d := _ped_Device2PedDevice lib g.dev st
      let s := _ped_Sector2PedSector g.start d.2
      let l := _ped_Sector2PedSector g.length s.2
      (d.1 = none → _ped_Geometry2PedGeometry lib (some g) st = (none, d.2)) ∧
      (d.1 ≠ none → s.1 = -1 → _ped_Geometry2PedGeometry lib (some g) st = (none, s.2)) ∧
      (d.1 ≠ none → s.1 ≠ -1 → l.1 = -1 →
        _ped_Geometry2PedGeometry lib (some g) st = (none, l.2)) ∧
      (d.1 = none ∨ s.1 = -1 ∨ l.1 = -1 →
        (_ped_Geometry2PedGeometry lib (some g) st).1 = none ∧
        (_ped_Geometry2PedGeometry lib (some g) st).2.calls.countP
            NativeCall.isGeometryNew
          = st.calls.countP NativeCall.isGeometryNew)) := by
  refine ⟨fun c => ?_, fun g => ?_⟩
  · intro r1 r2 r3 r4 r5 r6
    have base := constraint_abort_steps lib st c r1 r2 r3 r4 r5 r6 rfl rfl rfl rfl rfl rfl
    refine ⟨?_, ?_, ?_, ?_, ?_, ?_, base.2.2.2.2.2.2⟩
    · intro f1 c' ha
      have e1 := ha.1 (by decide)
      exact (constraint_abort_steps lib st c' r1 _ _ _ _ _
        (by rw [e1]) rfl rfl rfl rfl rfl).1 f1
    · intro f1 f2 c' ha
      have e1 := ha.1 (by decide)
      have e2 := ha.2.1 (by decide)
      exact (constraint_abort_steps lib st c' r1 r2 _ _ _ _
        (by rw [e1]) (by rw [e2]) rfl rfl rfl rfl).2.1 f1 f2
    · intro f1 f2 f3 c' ha
      have e1 := ha.1 (by decide)
      have e2 := ha.2.1 (by decide)
      have e3 := ha.2.2.1 (by decide)
      exact (constraint_abort_steps lib st c' r1 r2 r3 _ _ _
        (by rw [e1]) (by rw [e2]) (by rw [e3]) rfl rfl rfl).2.2.1 f1 f2 f3
    · intro f1 f2 f3 f4 c' ha
      have e1 := ha.1 (by decide)
      have e2 := ha.2.1 (by decide)
      have e3 := ha.2.2.1 (by decide)
      have e4 := ha.2.2.2.1 (by decide)
      exact (constraint_abort_steps lib st c' r1 r2 r3 r4 _ _
        (by rw [e1]) (by rw [e2]) (by rw [e3]) (by rw [e4]) rfl rfl).2.2.2.1 f1 f2 f3 f4
    · intro f1 f2 f3 f4 f5 c' ha
      have e1 := ha.1 (by decide)
      have e2 := ha.2.1 (by decide)
      have e3 := ha.2.2.1 (by decide)
      have e4 := ha.2.2.2.1 (by decide)
      have e5 := ha.2.2.2.2.1 (by decide)
      exact (constraint_abort_steps lib st c' r1 r2 r3 r4 r5 _
        (by rw [e1]) (by rw [e2]) (by rw [e3]) (by rw [e4]) (by rw [e5]) rfl).2.2.2.2.1
        f1 f2 f3 f4 f5
    · intro f1 f2 f3 f4 f5 f6 c' ha
      have e1 := ha.1 (by decide)
      have e2 := ha.2.1 (by decide)
      have e3 := ha.2.2.1 (by decide)
      have e4 := ha.2.2.2.1 (by decide)
      have e5 := ha.2.2.2.2.1 (by decide)
      have e6 := ha.2.2.2.2.2 (by decide)
      exact (constraint_abort_steps lib st c' r1 r2 r3 r4 r5 r6
        (by rw [e1]) (by rw [e2]) (by rw [e3]) (by rw [e4]) (by rw [e5]) (by rw [e6])).2.2.2.2.2.1
        f1 f2 f3 f4 f5 f6
  · intro d s l
    exact geometry_abort_steps lib st g d s l rfl rfl rfl

/-- Witness of C10.  A constraint wrapper whose `start_align` converts and whose
`end_align` is null: the converter stops after the second member, whatever the
remaining four are.  A geometry wrapper whose device converts and whose `start`
is null: the converter stops after the second member. -/
theorem nested_failure_aborts_witness :
    (_ped_Alignment2PedAlignment okLib (some ⟨some ⟨0⟩, some ⟨1⟩⟩) st0).1 ≠ none ∧
    agreeUpTo 2 (⟨some ⟨some ⟨0⟩, some ⟨1⟩⟩, none, none, none, none, none⟩)
      (⟨some ⟨some ⟨0⟩, some ⟨1⟩⟩, none,
        some ⟨some ⟨some "/dev/sda"⟩, some ⟨0⟩, some ⟨100⟩⟩, none, some ⟨1⟩, some ⟨100⟩⟩) ∧
    _ped_Constraint2PedConstraint okLib
      (some ⟨some ⟨some ⟨0⟩, some ⟨1⟩⟩, none,
        some ⟨some ⟨some "/dev/sda"⟩, some ⟨0⟩, some ⟨100⟩⟩, none, some ⟨1⟩, some ⟨100⟩⟩) st0
      = (none, { err := some ⟨.TypeError, "Empty _ped.Alignment()"⟩, native := 2,
                 calls := [.ped_alignment_new 0 1 (some ⟨1⟩)] }) ∧
    (_ped_Device2PedDevice okLib (some ⟨some "/dev/sda"⟩) st0).1 ≠ none ∧
    _ped_Geometry2PedGeometry okLib (some ⟨some ⟨some "/dev/sda"⟩, none, some ⟨100⟩⟩) st0
      = (none, { err := some ⟨.TypeError, "Empty _ped.Sector()"⟩, native := 2,
                 calls := [.ped_device_get "/dev/sda" (some ⟨1⟩)] }) :=
  ⟨by decide, by decide,
    ((nested_failure_aborts okLib st0).1
        ⟨some ⟨some ⟨0⟩, some ⟨1⟩⟩, none, none, none, none, none⟩).2.1
      (by decide) rfl
      ⟨some ⟨some ⟨0⟩, some ⟨1⟩⟩, none,
        some ⟨some ⟨some "/dev/sda"⟩, some ⟨0⟩, some ⟨100⟩⟩, none, some ⟨1⟩, some ⟨100⟩⟩
      (by decide),
    by decide,
    ((nested_failure_aborts okLib st0).2
        ⟨some ⟨some "/dev/sda"⟩, none, some ⟨100⟩⟩).2.1 (by decide) rfl⟩

/-! ## C11: the successful constraint conversion -/

/-- When the alignment converter succeeds, its wrapper had two non-null sectors
other than -1, and all it did was one successful `ped_alignment_new` on them. -/
theorem alignment_success {σ : Type} (lib : Libparted σ) (s : Option _ped_Alignment)
    (st : State σ) (a : PedAlignment)
    (h : (_ped_Alignment2PedAlignment lib s st).1 = some a) :
    ∃ o g : PedSector, s = some ⟨some ⟨o⟩, some ⟨g⟩⟩ ∧ o ≠ -1 ∧ g ≠ -1 ∧
      (_ped_Alignment2PedAlignment lib s st).2
        = { err := st.err, native := (lib.ped_alignment_new o g st.native).2,
            calls := st.calls ++ [.ped_alignment_new o g (some a)] } := by
  rcases s with _ | ⟨_ | ⟨⟨o⟩⟩, grain⟩
  · simp [_ped_Alignment2PedAlignment] at h
  · simp [_ped_Alignment2PedAlignment, _ped_Sector2PedSector] at h
  · by_cases ho : o = -1
    · simp [_ped_Alignment2PedAlignment, _ped_Sector2PedSector, ho] at h
    · rcases grain with _ | ⟨⟨g⟩⟩
      · simp [_ped_Alignment2PedAlignment, _ped_Sector2PedSector, ho] at h
      · by_cases hg : g = -1
        · simp [_ped_Alignment2PedAlignment, _ped_Sector2PedSector, ho, hg] at h
        · refine ⟨o, g, rfl, ho, hg, ?_⟩
          simp only [_ped_Alignment2PedAlignment, _ped_Sector2PedSector, ho, hg,
            call_ped_alignment_new, if_false] at h ⊢
          cases hr : (lib.ped_alignment_new o g st.native).1 with
          | none => simp [hr] at h
          | some r =>
            simp only [hr] at h ⊢
            simp only [Option.some.injEq] at h
            subst h
            rfl

/-- When the device converter succeeds, its wrapper had a non-null path, and all
it did was one successful `ped_device_get` on it. -/
theorem device_success {σ : Type} (lib : Libparted σ) (s : Option _ped_Device)
    (st : State σ) (d : PedDevice)
    (h : (_ped_Device2PedDevice lib s st).1 = some d) :
    ∃ path : String, s = some ⟨some path⟩ ∧
      (_ped_Device2PedDevice lib s st).2
        = { err := st.err, native := (lib.ped_device_get path st.native).2,
            calls := st.calls ++ [.ped_device_get path (some d)] } := by
  rcases s with _ | ⟨_ | path⟩
  · simp [_ped_Device2PedDevice] at h
  · simp [_ped_Device2PedDevice] at h
  · refine ⟨path, rfl, ?_⟩
    simp only [_ped_Device2PedDevice, call_ped_device_get] at h ⊢
    cases hr : (lib.ped_device_get path st.native).1 with
    | none => simp [hr] at h
    | some r =>
      simp only [hr] at h ⊢
      simp only [Option.some.injEq] at h
      subst h
      rfl

/-- When the geometry converter succeeds, its wrapper had a device with a path
and two non-null sectors other than -1, and all it did was a successful
`ped_device_get` followed by a successful `ped_geometry_new` on that device. -/
theorem geometry_success {σ : Type} (lib : Libparted σ) (s : Option _ped_Geometry)
    (st : State σ) (g : PedGeometry)
    (h : (_ped_Geometry2PedGeometry lib s st).1 = some g) :
    ∃ (path : String) (d : PedDevice) (start length : PedSector),
      s = some ⟨some ⟨some path⟩, some ⟨start⟩, some ⟨length⟩⟩ ∧
      start ≠ -1 ∧ length ≠ -1 ∧
      (_ped_Geometry2PedGeometry lib s st).2
        = { err := st.err,
            native := (lib.ped_geometry_new d start length
              (lib.ped_device_get path st.native).2).2,
            calls := st.calls ++
              [.ped_device_get path (some d), .ped_geometry_new d start length (some g)] } := by
  rcases s with _ | ⟨dev, start, length⟩
  · simp [_ped_Geometry2PedGeometry] at h
  · cases hd : (_ped_Device2PedDevice lib dev st).1 with
    | none => simp [_ped_Geometry2PedGeometry, hd] at h
    | some d =>
      obtain ⟨path, hdev, hst⟩ := device_success lib dev st d hd
      subst hdev
      rcases start with _ | ⟨⟨a⟩⟩
      · simp [_ped_Geometry2PedGeometry, hd, _ped_Sector2PedSector] at h
      · by_cases ha : a = -1
        · simp [_ped_Geometry2PedGeometry, hd, _ped_Sector2PedSector, ha] at h
        · rcases length with _ | ⟨⟨b⟩⟩
          · simp [_ped_Geometry2PedGeometry, hd, _ped_Sector2PedSector, ha] at h
          · by_cases hb : b = -1
            · simp [_ped_Geometry2PedGeometry, hd, _ped_Sector2PedSector, ha, hb] at h
            · refine ⟨path, d, a, b, rfl, ha, hb, ?_⟩
              simp only [_ped_Geometry2PedGeometry, hd, hst, _ped_Sector2PedSector, ha, hb,
                call_ped_geometry_new, if_false] at h ⊢
              cases hr : (lib.ped_geometry_new d a b
                  (lib.ped_device_get path st.native).2).1 with
              | none => simp [hr] at h
              | some r =>
                simp only [hr] at h ⊢
                simp only [Option.some.injEq] at h
                subst h
                simp

end Pyparted
